import Mathlib

/-!
Verification of the MedicPort `stockin` relocation and archive modules
(`src/stockin/relocation.py`, `src/stockin/product_archive.py`).

The Python code is shallowly embedded: Python `dict`s (which preserve
insertion order and have unique keys) become ordered association lists,
`float` becomes `ℚ`, `datetime` becomes an abstract tick `Nat`, and the
process-global mutable state (`relocation_history_state`,
`next_relocation_id`) is threaded explicitly.  Raised `HTTPException`s and
the uncaught `KeyError` become an `Except` result; in every error case the
embedded function returns the input state unchanged, mirroring the fact
that the Python code raises before mutating anything.  File I/O is
abstracted: `load` takes the parse outcome of the backing file as input
(`missing` / `corrupt` / `parsed data`) and `save` returns the document it
writes.
-/

namespace Stockin

/-- Numbers in the source are Python floats, used here only with `+ - *`
and order comparisons (never division), and with integral literals
(`-1000`, `-500`, `0`).  They are modelled as integers; every argument
below is ordered-ring reasoning that does not depend on the carrier, and
all concrete inputs in the repository's spec and tests are integral. -/
abbrev Qty := ℤ

/-- Association-list update of the (unique) binding of key `k`, mirroring a
Python `dict` item mutation through an object reference; a missing key
leaves the list unchanged. -/
def updateA {κ α : Type} [BEq κ] : List (κ × α) → κ → α → List (κ × α)
  | [], _, _ => []
  | (k', v') :: rest, k, v =>
    if k' == k then (k', v) :: rest else (k', v') :: updateA rest k v

/-- Association-list analogue of Python `d[k] = v`: overwrite the existing
binding, or append a new one at the end (dicts preserve insertion order). -/
def insertA {κ α : Type} [BEq κ] (m : List (κ × α)) (k : κ) (v : α) : List (κ × α) :=
  if (m.lookup k).isSome then updateA m k v else m ++ [(k, v)]

/-- Item / VSU dimensions.  A VSU's `dimensions` object may or may not carry
a precomputed `volume` attribute (the code probes it with `hasattr`), hence
the `Option`. -/
structure Dimensions where
  width : Qty
  height : Qty
  depth : Qty
  volume? : Option Qty := none
deriving Repr, DecidableEq

/-- 3-D position of a VSU, used for audit coordinates. -/
structure Position where
  x : Qty
  y : Qty
  z : Qty
deriving Repr, DecidableEq

/-- The parts of an item's `metadata` that the relocation module reads. -/
structure ItemMetadata where
  product_id : Int
  barcode : String
  dimensions : Dimensions
deriving Repr, DecidableEq

/-- An inventory item: identity, metadata, and its location reference
(`vsu_id`, `stock_index`). -/
structure Item where
  id : Int
  metadata : ItemMetadata
  vsu_id : Option Int
  stock_index : Int
deriving Repr, DecidableEq

/-- A virtual storage unit: code, capacity, position, home shelf, occupant
item ids and the `occupied` flag. -/
structure VirtualStorageUnit where
  code : String
  dimensions : Dimensions
  position : Position
  shelf_id : Int
  items : List Int
  occupied : Bool
deriving Repr, DecidableEq

/-- A shelf: display name, parent rack, and the ids of the VSUs it holds. -/
structure Shelf where
  name : String
  rack_id : Int
  virtual_units : List Int
deriving Repr, DecidableEq

abbrev ItemsMap := List (Int × Item)
abbrev VsuMap := List (Int × VirtualStorageUnit)
abbrev ShelfMap := List (Int × Shelf)

/-- `_item_fits_vsu`: the item fits iff each of width, height, depth is at
most the VSU's corresponding dimension. -/
def item_fits_vsu (item : Item) (vsu : VirtualStorageUnit) : Bool :=
  decide (item.metadata.dimensions.width ≤ vsu.dimensions.width) &&
  decide (item.metadata.dimensions.height ≤ vsu.dimensions.height) &&
  decide (item.metadata.dimensions.depth ≤ vsu.dimensions.depth)

/-- Item volume: width × height × depth of the item's dimensions. -/
def itemVolume (item : Item) : Qty :=
  item.metadata.dimensions.width * item.metadata.dimensions.height *
    item.metadata.dimensions.depth

/-- Effective VSU volume: the stored `volume` attribute when present
(`hasattr(vsu.dimensions, 'volume')`), else width × height × depth. -/
def vsuVolume (vsu : VirtualStorageUnit) : Qty :=
  match vsu.dimensions.volume? with
  | some v => v
  | none => vsu.dimensions.width * vsu.dimensions.height * vsu.dimensions.depth

/-- `_calculate_vsu_fit_score`: wasted space (VSU volume minus item volume)
plus a location bonus of −1000 on the same shelf, −500 on (merely) the same
rack, 0 otherwise.  Lower is better. -/
def calculate_vsu_fit_score (item : Item) (vsu : VirtualStorageUnit)
    (is_same_shelf is_same_rack : Bool) : Qty :=
  let wasted_space := vsuVolume vsu - itemVolume item
  let location_bonus : Qty :=
    if is_same_shelf then -1000 else if is_same_rack then -500 else 0
  wasted_space + location_bonus

/-- A unit item used in examples and witnesses. -/
def exItem : Item where
  id := 1
  metadata :=
    { product_id := 1
      barcode := "b"
      dimensions := { width := 1, height := 1, depth := 1 } }
  vsu_id := none
  stock_index := 0

/-- A 2×3×1 slot used in examples and witnesses. -/
def exVsu : VirtualStorageUnit where
  code := "V"
  dimensions := { width := 2, height := 3, depth := 1 }
  position := { x := 0, y := 0, z := 0 }
  shelf_id := 1
  items := []
  occupied := false

example : calculate_vsu_fit_score exItem exVsu true false = -995 := by decide
example : item_fits_vsu exItem exVsu = true := by decide

/-- One entry of the Python `candidates` list:
`(score, vsu_id, vsu.code, vsu, location_desc)`. -/
structure Candidate where
  score : Qty
  vsu_id : Int
  code : String
  vsu : VirtualStorageUnit
  loc_desc : String
deriving Repr, DecidableEq

/-- Body of the inner loop of `find_empty_vsu_for_relocate`: look the VSU id
up (`if not vsu: continue`), skip it when its occupant list is non-empty or
the item does not fit, otherwise build the candidate tuple. -/
def considerVsu (item_to_relocate : Item) (shelf_id : Int)
    (current_rack_id : Option Int) (virtual_units : VsuMap)
    (sid : Int) (shelf : Shelf) (vsu_id : Int) : Option Candidate :=
  let is_same_shelf : Bool := sid == shelf_id
  let is_same_rack : Bool := some shelf.rack_id == current_rack_id
  match virtual_units.lookup vsu_id with
  | none => none
  | some vsu =>
    if vsu.items ≠ [] then none
    else if item_fits_vsu item_to_relocate vsu = false then none
    else
      some
        { score := calculate_vsu_fit_score item_to_relocate vsu is_same_shelf is_same_rack
          vsu_id := vsu_id
          code := vsu.code
          vsu := vsu
          loc_desc :=
            if is_same_shelf then "same shelf"
            else if is_same_rack then "shelf " ++ shelf.name ++ " (same rack)"
            else "shelf " ++ shelf.name ++ " (rack " ++ toString shelf.rack_id ++ ")" }

/-- The `candidates` list assembled by the two nested loops of
`find_empty_vsu_for_relocate`, in scan order (shelves in dict order, then
each shelf's `virtual_units` in list order).  `current_rack_id` is
`shelves.get(shelf_id).rack_id` when the origin shelf exists, else `None`. -/
def candidatesFor (item_to_relocate : Item) (shelf_id : Int)
    (virtual_units : VsuMap) (shelves : ShelfMap) : List Candidate :=
  let current_rack_id : Option Int := (shelves.lookup shelf_id).map Shelf.rack_id
  shelves.flatMap fun p =>
    p.2.virtual_units.filterMap
      (considerVsu item_to_relocate shelf_id current_rack_id virtual_units p.1 p.2)

/-- First candidate of minimal score.  The source sorts the candidate list
with Python's stable `list.sort(key=lambda x: x[0])` and takes element `[0]`;
the first element of a stably sorted list is exactly the first element of
the original list attaining the minimal key, which is what this fold
computes (a later candidate replaces the current best only when its score
is strictly smaller). -/
def pickBest (best : Candidate) : List Candidate → Candidate
  | [] => best
  | c :: rest => if c.score < best.score then pickBest c rest else pickBest best rest

/-- `find_empty_vsu_for_relocate` (the `items` dict parameter of the source
is accepted and never read): build the candidate list, return `None` when it
is empty, else the best candidate as `(vsu_id, vsu.code, vsu)`. -/
def find_empty_vsu_for_relocate (item_to_relocate : Item) (shelf_id : Int)
    (_items : ItemsMap) (virtual_units : VsuMap) (shelves : ShelfMap) :
    Option (Int × String × VirtualStorageUnit) :=
  match candidatesFor item_to_relocate shelf_id virtual_units shelves with
  | [] => none
  | c :: rest =>
    let best := pickBest c rest
    some (best.vsu_id, best.code, best.vsu)

/-- One relocation audit record (`RelocationRecord` in the source);
`relocated_at : Nat` is an abstract clock tick standing for `datetime`. -/
structure RelocationRecord where
  item_id : Int
  product_id : Int
  barcode : String
  original_vsu_id : Int
  original_vsu_code : String
  new_vsu_id : Int
  new_vsu_code : String
  original_coordinates : Position
  new_coordinates : Position
  relocated_at : Nat
  reason : String := "obstruction_removal"
deriving Repr, DecidableEq

/-- The history aggregate's `metadata` dict, which the source always keeps
with exactly these keys. -/
structure HistoryMetadata where
  total_relocations : Nat
  last_updated : Option Nat
  version : String
deriving Repr, DecidableEq

/-- The pydantic default `metadata` (and the `data.get` fallback used on
load, whose count is the number of loaded records). -/
def defaultHistoryMetadata (n : Nat) : HistoryMetadata where
  total_relocations := n
  last_updated := none
  version := "1.0"

/-- `RelocationHistory`: relocation-id-keyed records plus metadata. -/
structure RelocationHistory where
  relocations : List (Nat × RelocationRecord)
  metadata : HistoryMetadata
deriving Repr, DecidableEq

/-- A fresh `RelocationHistory()`. -/
def emptyHistory : RelocationHistory where
  relocations := []
  metadata := defaultHistoryMetadata 0

/-- `save_relocation_history`: refresh the metadata in place
(`total_relocations := len(relocations)`, `last_updated := now`) and write
the whole aggregate.  Returns (in-memory aggregate after the mutation,
document written to the file) — identical by construction; the JSON
encoding's string keys and ISO timestamps are not modelled.  An I/O failure
would re-raise; the success path is what is modelled. -/
def save_relocation_history (history : RelocationHistory) (now : Nat) :
    RelocationHistory × RelocationHistory :=
  let h : RelocationHistory :=
    { history with
        metadata :=
          { history.metadata with
              total_relocations := history.relocations.length
              last_updated := some now } }
  (h, h)

/-- Parse outcome of a JSON-backed store file: missing, or present but
failing to parse/validate (any exception inside the `try` block), or
parsed to `data`. -/
inductive FileState (α : Type) where
  | missing : FileState α
  | corrupt : FileState α
  | parsed (data : α) : FileState α
deriving Repr, DecidableEq

/-- On-disk relocation-history document as parsed: the `relocations`
mapping (`data.get("relocations", {})` — absent means empty) plus the
optional `metadata` object (`data.get("metadata", ...)`). -/
structure HistoryFile where
  relocations : List (Nat × RelocationRecord)
  metadata : Option HistoryMetadata
deriving Repr, DecidableEq

/-- `max(d.keys())`, folded with base 0 (the source only evaluates it on a
non-empty dict). -/
def maxKey {α : Type} (m : List (Nat × α)) : Nat :=
  m.foldl (fun acc p => max acc p.1) 0

/-- Result of `load_relocation_history`: the new global
`relocation_history_state`, the (possibly updated) global
`next_relocation_id`, and the document written during the load, if any. -/
structure HistoryLoadResult where
  state : RelocationHistory
  next_relocation_id : Nat
  written : Option RelocationHistory
deriving Repr, DecidableEq

/-- `load_relocation_history`.  Missing file: fresh empty aggregate, saved
immediately.  Corrupt file: the exception is caught, fresh empty aggregate,
saved immediately (overwriting the corrupt file).  Parsed file: adopt the
records; `next_relocation_id` becomes `max(keys) + 1` only when the record
dict is non-empty, otherwise the global keeps its previous value (it is
initialised to 1 at module load). -/
def load_relocation_history (file : FileState HistoryFile)
    (next_relocation_id : Nat) (now : Nat) : HistoryLoadResult :=
  match file with
  | .missing =>
    let p := save_relocation_history emptyHistory now
    { state := p.1
      next_relocation_id := next_relocation_id
      written := some p.2 }
  | .corrupt =>
    let p := save_relocation_history emptyHistory now
    { state := p.1
      next_relocation_id := next_relocation_id
      written := some p.2 }
  | .parsed data =>
    { state :=
        { relocations := data.relocations
          metadata := data.metadata.getD (defaultHistoryMetadata data.relocations.length) }
      next_relocation_id :=
        if data.relocations ≠ [] then maxKey data.relocations + 1 else next_relocation_id
      written := none }

/-- The archive's `dimensions` dict: exactly the keys width/height/depth. -/
structure BoxDims where
  width : Qty
  height : Qty
  depth : Qty
deriving Repr, DecidableEq

/-- `ArchivedItem`: frozen snapshot of a dispensed item and its last
location; `dispensed_at : Nat` stands for `datetime`. -/
structure ArchivedItem where
  item_id : Int
  product_id : Int
  barcode : String
  batch : String
  expiration : String
  dimensions : BoxDims
  weight : Qty
  vsu_id : Int
  vsu_code : String
  shelf_id : Int
  shelf_name : String
  coordinates : Position
  stock_index : Int
  dispensed_at : Nat
  task_id : String
deriving Repr, DecidableEq

/-- The archive aggregate's `metadata` dict. -/
structure ArchiveMetadata where
  total_items : Nat
  last_updated : Option Nat
  version : String
deriving Repr, DecidableEq

/-- `ProductArchive`: item-id-keyed archived items plus metadata. -/
structure ProductArchive where
  items : List (Int × ArchivedItem)
  metadata : ArchiveMetadata
deriving Repr, DecidableEq

/-- A fresh `ProductArchive()`. -/
def emptyArchive : ProductArchive where
  items := []
  metadata := { total_items := 0, last_updated := none, version := "1.0" }

/-- `save_product_archive`: refresh metadata (`total_items := len(items)`,
`last_updated := now`) and write the aggregate; returns (in-memory state
after the mutation, document written). -/
def save_product_archive (archive : ProductArchive) (now : Nat) :
    ProductArchive × ProductArchive :=
  let a : ProductArchive :=
    { archive with
        metadata :=
          { archive.metadata with
              total_items := archive.items.length
              last_updated := some now } }
  (a, a)

/-- On-disk product-archive document as parsed: the `items` mapping plus
the optional `metadata` object. -/
structure ArchiveFile where
  items : List (Int × ArchivedItem)
  metadata : Option ArchiveMetadata
deriving Repr, DecidableEq

/-- Result of `load_product_archive`: the new global state and the
document written during the load, if any. -/
structure ArchiveLoadResult where
  state : ProductArchive
  written : Option ProductArchive
deriving Repr, DecidableEq

/-- `load_product_archive`.  Missing file: fresh empty archive, saved
immediately.  Corrupt file: exception caught, fresh empty archive, saved
immediately (overwriting the corrupt file).  Parsed file: adopt the items
and the metadata (or the default when the key is absent). -/
def load_product_archive (file : FileState ArchiveFile) (now : Nat) :
    ArchiveLoadResult :=
  match file with
  | .missing =>
    let p := save_product_archive emptyArchive now
    { state := p.1, written := some p.2 }
  | .corrupt =>
    let p := save_product_archive emptyArchive now
    { state := p.1, written := some p.2 }
  | .parsed data =>
    { state :=
        { items := data.items
          metadata :=
            data.metadata.getD
              { total_items := data.items.length, last_updated := none, version := "1.0" } }
      written := none }

/-- The errors `relocate_item` can raise: the three `HTTPException`s
(404 item not found, 400 item not in any VSU, 503 no empty VSU available)
plus the uncaught `KeyError` of the unguarded
`virtual_units[original_vsu_id]` lookup. -/
inductive RelocError where
  | itemNotFound (item_id : Int) : RelocError
  | itemNotPlaced (item_id : Int) : RelocError
  | noEmptyVsu (shelf_id : Int) : RelocError
  | keyError (vsu_id : Int) : RelocError
deriving Repr, DecidableEq

/-- The dict returned by a successful `relocate_item`. -/
structure RelocResult where
  item_id : Int
  original_vsu_id : Int
  original_vsu_code : String
  new_vsu_id : Int
  new_vsu_code : String
  new_coordinates : Position
  stock_index : Int
  relocated_at : Nat
  reason : String
deriving Repr, DecidableEq

/-- The mutable state `relocate_item` touches: the three inventory dicts it
receives by reference plus the module globals `relocation_history_state`
(assumed already loaded, as after the lazy `load_relocation_history` call)
and `next_relocation_id`. -/
structure WarehouseState where
  items : ItemsMap
  virtual_units : VsuMap
  shelves : ShelfMap
  history : RelocationHistory
  next_relocation_id : Nat
deriving Repr, DecidableEq

/-- Outcome of `relocate_item`: the returned dict or the raised error, the
state afterwards (unchanged on every error, since each raise precedes any
mutation), and the history document written by the final save, if reached. -/
structure RelocOutcome where
  result : Except RelocError RelocResult
  state : WarehouseState
  written : Option RelocationHistory
deriving Repr

/-- The origin-side mutation block of `relocate_item`: drop the first
occurrence of the item id when present (`list.remove`, guarded by an `in`
test), and clear `occupied` when — and only when — the list became empty
(the flag is otherwise left untouched). -/
def removeFromOrigin (item_id : Int) (origin : VirtualStorageUnit) : VirtualStorageUnit :=
  let origin1 : VirtualStorageUnit :=
    { origin with
        items :=
          if item_id ∈ origin.items then origin.items.erase item_id
          else origin.items }
  if origin1.items = [] then { origin1 with occupied := false } else origin1

/-- The destination-side mutation block of `relocate_item`: append the item
id and set `occupied := true` (a `None` occupant list would be replaced by
`[]` first; the embedding's lists are never `None`). -/
def appendToDest (item_id : Int) (vsu : VirtualStorageUnit) : VirtualStorageUnit :=
  { vsu with items := vsu.items ++ [item_id], occupied := true }

/-- The success branch of `relocate_item` (everything after the guards):
the origin-side mutation, the destination-side mutation,
`stock_index := len(new_vsu.items) - 1`, the item's `vsu_id`/`stock_index`
update, the audit record keyed by `next_relocation_id`, the increment, and
the history save.  The destination VSU is re-read through the map after the
origin update so that the aliasing of the two Python object references is
reproduced when origin and destination coincide. -/
def relocateCommit (item_id : Int) (st : WarehouseState) (now : Nat) (reason : String)
    (item : Item) (original_vsu_id : Int) (original_vsu : VirtualStorageUnit)
    (new_vsu_id : Int) (new_vsu_code : String) (found_vsu : VirtualStorageUnit) :
    RelocOutcome :=
  let origin2 := removeFromOrigin item_id original_vsu
  let vsus1 := updateA st.virtual_units original_vsu_id origin2
  let new_vsu0 := (vsus1.lookup new_vsu_id).getD found_vsu
  let new_vsu1 := appendToDest item_id new_vsu0
  let vsus2 := updateA vsus1 new_vsu_id new_vsu1
  let stock_index : Int := (new_vsu1.items.length : Int) - 1
  let item1 : Item := { item with vsu_id := some new_vsu_id, stock_index := stock_index }
  let items1 := updateA st.items item_id item1
  let record : RelocationRecord :=
    { item_id := item_id
      product_id := item.metadata.product_id
      barcode := item.metadata.barcode
      original_vsu_id := original_vsu_id
      original_vsu_code := original_vsu.code
      new_vsu_id := new_vsu_id
      new_vsu_code := new_vsu_code
      original_coordinates := original_vsu.position
      new_coordinates := new_vsu1.position
      relocated_at := now
      reason := reason }
  let history1 : RelocationHistory :=
    { st.history with
        relocations := insertA st.history.relocations st.next_relocation_id record }
  let p := save_relocation_history history1 now
  { result := .ok
      { item_id := item_id
        original_vsu_id := original_vsu_id
        original_vsu_code := original_vsu.code
        new_vsu_id := new_vsu_id
        new_vsu_code := new_vsu_code
        new_coordinates := new_vsu1.position
        stock_index := stock_index
        relocated_at := now
        reason := reason }
    state :=
      { items := items1
        virtual_units := vsus2
        shelves := st.shelves
        history := p.1
        next_relocation_id := st.next_relocation_id + 1 }
    written := some p.2 }

/-- `relocate_item`.  Mirrors the source guards in order: the 404 raise when
the item id is absent, the 400 raise when its `vsu_id` is `None`, the
unguarded `virtual_units[original_vsu_id]` dict access (`KeyError` when the
key is absent), the candidate search with the origin VSU's shelf, the 503
raise when the search returns `None`, and otherwise the success branch
`relocateCommit`.  The state the module globals hold is assumed already
loaded (the lazy `load_relocation_history` call on first use). -/
def relocate_item (item_id : Int) (st : WarehouseState) (now : Nat)
    (reason : String := "obstruction_removal") : RelocOutcome :=
  match st.items.lookup item_id with
  | none => { result := .error (.itemNotFound item_id), state := st, written := none }
  | some item =>
    match item.vsu_id with
    | none => { result := .error (.itemNotPlaced item_id), state := st, written := none }
    | some original_vsu_id =>
      match st.virtual_units.lookup original_vsu_id with
      | none => { result := .error (.keyError original_vsu_id), state := st, written := none }
      | some original_vsu =>
        let shelf_id := original_vsu.shelf_id
        match find_empty_vsu_for_relocate item shelf_id st.items st.virtual_units st.shelves with
        | none => { result := .error (.noEmptyVsu shelf_id), state := st, written := none }
        | some (new_vsu_id, new_vsu_code, found_vsu) =>
          relocateCommit item_id st now reason item original_vsu_id original_vsu
            new_vsu_id new_vsu_code found_vsu

/-!
Concrete fixtures: the spec's §8 scenario in integral units.  Item 42
(barcode "X1", 100×50×30) sits in VSU 103 "A-01-03" on shelf 1 "A-01"
(rack 10); empty VSU 107 "A-01-07" on the same shelf fits it with wasted
volume 1000 (through a stored `volume` attribute, exercising the `hasattr`
branch); empty VSU 201 "B-02-01" on shelf 2 "B-02" (rack 20) fits it with
wasted volume 10.  The same-shelf bonus must make 107 win.
-/

/-- Scenario item 42. -/
def item42 : Item where
  id := 42
  metadata :=
    { product_id := 7
      barcode := "X1"
      dimensions := { width := 100, height := 50, depth := 30 } }
  vsu_id := some 103
  stock_index := 0

/-- Scenario origin VSU, holding item 42. -/
def vsu103 : VirtualStorageUnit where
  code := "A-01-03"
  dimensions := { width := 100, height := 50, depth := 30 }
  position := { x := 1, y := 2, z := 3 }
  shelf_id := 1
  items := [42]
  occupied := true

/-- Scenario same-shelf empty VSU, wasted volume 1000. -/
def vsu107 : VirtualStorageUnit where
  code := "A-01-07"
  dimensions := { width := 100, height := 50, depth := 30, volume? := some 151000 }
  position := { x := 4, y := 5, z := 6 }
  shelf_id := 1
  items := []
  occupied := false

/-- Scenario other-rack empty VSU, wasted volume 10. -/
def vsu201 : VirtualStorageUnit where
  code := "B-02-01"
  dimensions := { width := 100, height := 50, depth := 31, volume? := some 150010 }
  position := { x := 7, y := 8, z := 9 }
  shelf_id := 2
  items := []
  occupied := false

/-- Scenario shelf "A-01" on rack 10, holding VSUs 103 and 107. -/
def shelfA : Shelf where
  name := "A-01"
  rack_id := 10
  virtual_units := [103, 107]

/-- Scenario shelf "B-02" on rack 20, holding VSU 201. -/
def shelfB : Shelf where
  name := "B-02"
  rack_id := 20
  virtual_units := [201]

/-- The scenario's full warehouse state, with a fresh history. -/
def stdState : WarehouseState where
  items := [(42, item42)]
  virtual_units := [(103, vsu103), (107, vsu107), (201, vsu201)]
  shelves := [(1, shelfA), (2, shelfB)]
  history := emptyHistory
  next_relocation_id := 1

example :
    find_empty_vsu_for_relocate item42 1 stdState.items stdState.virtual_units stdState.shelves
      = some (107, "A-01-07", vsu107) := by decide

example : (relocate_item 42 stdState 5).result.isOk = true := by decide
example : (relocate_item 42 stdState 5).state.next_relocation_id = 2 := by decide

/-! ### Association-list lemmas -/

theorem lookup_updateA_self {κ α : Type} [BEq κ] [LawfulBEq κ]
    (m : List (κ × α)) (k : κ) (v : α) (h : (m.lookup k).isSome) :
    (updateA m k v).lookup k = some v := by
  induction m with
  | nil => simp [List.lookup] at h
  | cons p rest ih =>
    by_cases h0 : p.1 = k
    · simp [updateA, h0, List.lookup]
    · have hb : (p.1 == k) = false := by simp [h0]
      have hb' : (k == p.1) = false := by
        simp only [beq_eq_false_iff_ne, ne_eq]
        exact fun hh => h0 hh.symm
      simp only [List.lookup, updateA, hb, if_false, hb'] at h ⊢
      exact ih h

theorem lookup_updateA_ne {κ α : Type} [BEq κ] [LawfulBEq κ]
    (m : List (κ × α)) (k k' : κ) (v : α) (h : k' ≠ k) :
    (updateA m k v).lookup k' = m.lookup k' := by
  induction m with
  | nil => simp [updateA]
  | cons p rest ih =>
    by_cases h0 : p.1 = k
    · have hb : (k' == k) = false := by simp [h]
      simp [updateA, h0, List.lookup, hb]
    · have hb : (p.1 == k) = false := by simp [h0]
      by_cases h1 : k' = p.1
      · simp [updateA, hb, List.lookup, h1]
      · have hb' : (k' == p.1) = false := by simp [h1]
        simp only [updateA, hb, if_false, List.lookup, hb']
        exact ih

theorem lookup_insertA_self {κ α : Type} [BEq κ] [LawfulBEq κ]
    (m : List (κ × α)) (k : κ) (v : α) :
    (insertA m k v).lookup k = some v := by
  unfold insertA
  by_cases h : (m.lookup k).isSome
  · simp only [h, if_true]
    exact lookup_updateA_self m k v h
  · simp only [h, if_false]
    induction m with
    | nil => simp [List.lookup]
    | cons p rest ih =>
      by_cases h0 : k = p.1
      · simp [List.lookup, h0] at h
      · have hb : (k == p.1) = false := by simp [h0]
        simp only [List.lookup, hb, List.cons_append] at h ⊢
        exact ih h

/-! ### `pickBest` lemmas: the fold returns the first candidate of minimal
score, which is exactly the head of the stably score-sorted list the source
computes. -/

theorem pickBest_cons (best c : Candidate) (rest : List Candidate) :
    pickBest best (c :: rest) =
      if c.score < best.score then pickBest c rest else pickBest best rest := rfl

theorem pickBest_mem (best : Candidate) (l : List Candidate) :
    pickBest best l ∈ best :: l := by
  induction l generalizing best with
  | nil => simp [pickBest]
  | cons c rest ih =>
    by_cases hlt : c.score < best.score
    · rw [pickBest_cons, if_pos hlt]
      exact List.mem_cons_of_mem best (ih c)
    · rw [pickBest_cons, if_neg hlt]
      rcases List.mem_cons.mp (ih best) with h | h
      · rw [h]; exact List.mem_cons_self _ _
      · exact List.mem_cons_of_mem best (List.mem_cons_of_mem c h)

theorem pickBest_le (best : Candidate) (l : List Candidate) :
    ∀ d ∈ best :: l, (pickBest best l).score ≤ d.score := by
  induction l generalizing best with
  | nil =>
    intro d hd
    rcases List.mem_cons.mp hd with h | h
    · simp [pickBest, h]
    · simp at h
  | cons c rest ih =>
    intro d hd
    by_cases hlt : c.score < best.score
    · rw [pickBest_cons, if_pos hlt]
      rcases List.mem_cons.mp hd with h | h
      · have h1 : (pickBest c rest).score ≤ c.score := ih c c (List.mem_cons_self c rest)
        rw [h]
        exact le_of_lt (lt_of_le_of_lt h1 hlt)
      · exact ih c d h
    · rw [pickBest_cons, if_neg hlt]
      rcases List.mem_cons.mp hd with h | h
      · rw [h]; exact ih best best (List.mem_cons_self best rest)
      · rcases List.mem_cons.mp h with h' | h'
        · have h1 : (pickBest best rest).score ≤ best.score :=
            ih best best (List.mem_cons_self best rest)
          rw [h']
          exact le_trans h1 (le_of_not_lt hlt)
        · exact ih best d (List.mem_cons_of_mem best h')

theorem pickBest_split (best : Candidate) (l : List Candidate) :
    ∃ l₁ l₂, best :: l = l₁ ++ (pickBest best l) :: l₂ ∧
      (∀ d ∈ l₁, (pickBest best l).score < d.score) ∧
      (∀ d ∈ l₂, (pickBest best l).score ≤ d.score) := by
  induction l generalizing best with
  | nil => exact ⟨[], [], rfl, by simp, by simp⟩
  | cons c rest ih =>
    by_cases hlt : c.score < best.score
    · obtain ⟨l₁, l₂, heq, h₁, h₂⟩ := ih c
      rw [pickBest_cons, if_pos hlt]
      refine ⟨best :: l₁, l₂, ?_, ?_, h₂⟩
      · rw [List.cons_append, ← heq]
      · intro d hd
        rcases List.mem_cons.mp hd with h | h
        · have hle : (pickBest c rest).score ≤ c.score :=
            pickBest_le c rest c (List.mem_cons_self c rest)
          rw [h]
          exact lt_of_le_of_lt hle hlt
        · exact h₁ d h
    · obtain ⟨l₁, l₂, heq, h₁, h₂⟩ := ih best
      rw [pickBest_cons, if_neg hlt]
      cases l₁ with
      | nil =>
        rw [List.nil_append] at heq
        injection heq with hb hrest
        refine ⟨[], c :: rest, ?_, by simp, ?_⟩
        · rw [List.nil_append, ← hb]
        · intro d hd
          rcases List.mem_cons.mp hd with h | h
          · rw [h, ← hb]
            exact le_of_not_lt hlt
          · exact h₂ d (hrest ▸ h)
      | cons x l₁' =>
        rw [List.cons_append] at heq
        injection heq with hx hrest
        refine ⟨best :: c :: l₁', l₂, ?_, ?_, h₂⟩
        · rw [List.cons_append, List.cons_append, ← hrest]
        · have hlt_best : (pickBest best rest).score < best.score := by
            have := h₁ x (List.mem_cons_self x l₁')
            rwa [← hx] at this
          intro d hd
          rcases List.mem_cons.mp hd with h | h
          · rw [h]; exact hlt_best
          · rcases List.mem_cons.mp h with h' | h'
            · rw [h']
              exact lt_of_lt_of_le hlt_best (le_of_not_lt hlt)
            · exact h₁ d (List.mem_cons_of_mem x h')

/-! ### Candidate-list characterisation -/

theorem considerVsu_some_spec {item : Item} {shelf_id : Int} {crid : Option Int}
    {vsus : VsuMap} {sid : Int} {shelf : Shelf} {vid : Int} {c : Candidate}
    (h : considerVsu item shelf_id crid vsus sid shelf vid = some c) :
    c.vsu_id = vid ∧ vsus.lookup vid = some c.vsu ∧ c.vsu.items = [] ∧
      item_fits_vsu item c.vsu = true ∧ c.code = c.vsu.code ∧
      c.score = calculate_vsu_fit_score item c.vsu (sid == shelf_id)
        (some shelf.rack_id == crid) := by
  unfold considerVsu at h
  split at h
  next hl => cases h
  next vsu hl =>
    split at h
    next hne => cases h
    next hne =>
      have he : vsu.items = [] := not_not.mp hne
      split at h
      next hff => cases h
      next hff =>
        have hf : item_fits_vsu item vsu = true := by simpa using hff
        cases h
        exact ⟨rfl, hl, he, hf, rfl, rfl⟩

theorem considerVsu_isSome {item : Item} {shelf_id : Int} {crid : Option Int}
    {vsus : VsuMap} (sid : Int) (shelf : Shelf) {vid : Int} {vsu : VirtualStorageUnit}
    (hl : vsus.lookup vid = some vsu) (he : vsu.items = [])
    (hf : item_fits_vsu item vsu = true) :
    (considerVsu item shelf_id crid vsus sid shelf vid).isSome := by
  unfold considerVsu
  rw [hl]
  dsimp only
  rw [if_neg (by simp [he]), if_neg (by simp [hf])]
  rfl

theorem considerVsu_eq_some {item : Item} {shelf_id : Int} {crid : Option Int}
    {vsus : VsuMap} (sid : Int) (shelf : Shelf) {vid : Int} {vsu : VirtualStorageUnit}
    (hl : vsus.lookup vid = some vsu) (he : vsu.items = [])
    (hf : item_fits_vsu item vsu = true) :
    ∃ c, considerVsu item shelf_id crid vsus sid shelf vid = some c ∧
      c.vsu_id = vid ∧ c.vsu = vsu ∧
      c.score = calculate_vsu_fit_score item vsu (sid == shelf_id)
        (some shelf.rack_id == crid) := by
  obtain ⟨c, hc⟩ := Option.isSome_iff_exists.mp (considerVsu_isSome sid shelf hl he hf)
  obtain ⟨h1, h2, _, _, _, h6⟩ := considerVsu_some_spec hc
  have hv : c.vsu = vsu := (Option.some.inj (hl.symm.trans h2)).symm
  exact ⟨c, hc, h1, hv, by rw [h6, hv]⟩

theorem mem_candidatesFor {item : Item} {shelf_id : Int} {vsus : VsuMap}
    {shelves : ShelfMap} {c : Candidate} :
    c ∈ candidatesFor item shelf_id vsus shelves ↔
      ∃ sid shelf vid, (sid, shelf) ∈ shelves ∧ vid ∈ shelf.virtual_units ∧
        considerVsu item shelf_id ((shelves.lookup shelf_id).map Shelf.rack_id)
          vsus sid shelf vid = some c := by
  unfold candidatesFor
  simp only [List.mem_flatMap, List.mem_filterMap]
  constructor
  · rintro ⟨⟨sid, shelf⟩, hp, vid, hvid, hc⟩
    exact ⟨sid, shelf, vid, hp, hvid, hc⟩
  · rintro ⟨sid, shelf, vid, hp, hvid, hc⟩
    exact ⟨(sid, shelf), hp, vid, hvid, hc⟩

/-! ### `find_empty_vsu_for_relocate` unfolding lemmas -/

theorem find_nil {item : Item} {shelf_id : Int} {its : ItemsMap}
    {vsus : VsuMap} {shelves : ShelfMap}
    (hc : candidatesFor item shelf_id vsus shelves = []) :
    find_empty_vsu_for_relocate item shelf_id its vsus shelves = none := by
  unfold find_empty_vsu_for_relocate
  rw [hc]

theorem find_cons {item : Item} {shelf_id : Int} (its : ItemsMap)
    {vsus : VsuMap} {shelves : ShelfMap} {c : Candidate} {rest : List Candidate}
    (hc : candidatesFor item shelf_id vsus shelves = c :: rest) :
    find_empty_vsu_for_relocate item shelf_id its vsus shelves =
      some ((pickBest c rest).vsu_id, (pickBest c rest).code, (pickBest c rest).vsu) := by
  unfold find_empty_vsu_for_relocate
  rw [hc]

theorem find_eq_none_iff {item : Item} {shelf_id : Int} {its : ItemsMap}
    {vsus : VsuMap} {shelves : ShelfMap} :
    find_empty_vsu_for_relocate item shelf_id its vsus shelves = none ↔
      candidatesFor item shelf_id vsus shelves = [] := by
  cases hc : candidatesFor item shelf_id vsus shelves with
  | nil => simp [find_nil hc]
  | cons c rest => simp [find_cons its hc]

theorem find_eq_some_spec {item : Item} {shelf_id : Int} {its : ItemsMap}
    {vsus : VsuMap} {shelves : ShelfMap} {vid : Int} {code : String}
    {v : VirtualStorageUnit}
    (h : find_empty_vsu_for_relocate item shelf_id its vsus shelves = some (vid, code, v)) :
    vsus.lookup vid = some v ∧ v.items = [] ∧ item_fits_vsu item v = true ∧
      code = v.code := by
  cases hc : candidatesFor item shelf_id vsus shelves with
  | nil => rw [find_nil hc] at h; cases h
  | cons a l =>
    rw [find_cons its hc] at h
    have hmem : pickBest a l ∈ candidatesFor item shelf_id vsus shelves := by
      rw [hc]; exact pickBest_mem a l
    obtain ⟨sid, shelf, vid', _, _, hcv⟩ := mem_candidatesFor.mp hmem
    obtain ⟨h1, h2, h3, h4, h5, _⟩ := considerVsu_some_spec hcv
    injection h with h'
    have hv1 : (pickBest a l).vsu_id = vid := congrArg (fun t => t.1) h'
    have hv2 : (pickBest a l).code = code := congrArg (fun t => t.2.1) h'
    have hv3 : (pickBest a l).vsu = v := congrArg (fun t => t.2.2) h'
    have hvv : vid' = vid := h1.symm.trans hv1
    refine ⟨?_, hv3 ▸ h3, hv3 ▸ h4, ?_⟩
    · rw [← hv3, ← hvv]; exact h2
    · rw [← hv2, ← hv3]; exact h5

/-! ### `relocate_item` success inversion -/

theorem relocate_item_ok_inv {item_id : Int} {st : WarehouseState} {now : Nat}
    {reason : String} {res : RelocResult}
    (h : (relocate_item item_id st now reason).result = .ok res) :
    ∃ item ov origin nvid ncode nvsu,
      st.items.lookup item_id = some item ∧
      item.vsu_id = some ov ∧
      st.virtual_units.lookup ov = some origin ∧
      find_empty_vsu_for_relocate item origin.shelf_id st.items st.virtual_units st.shelves
        = some (nvid, ncode, nvsu) ∧
      relocate_item item_id st now reason =
        relocateCommit item_id st now reason item ov origin nvid ncode nvsu := by
  unfold relocate_item at h
  split at h
  next hit => simp at h
  next item hit =>
    split at h
    next hv => simp at h
    next ov hv =>
      split at h
      next ho => simp at h
      next origin ho =>
        dsimp only at h
        split at h
        next hf => simp at h
        next nvid ncode nvsu hf =>
          refine ⟨item, ov, origin, nvid, ncode, nvsu, hit, hv, ho, hf, ?_⟩
          simp only [relocate_item, hit, hv, ho, hf]

/-! ### Mutation-block lemmas -/

theorem removeFromOrigin_items (item_id : Int) (origin : VirtualStorageUnit) :
    (removeFromOrigin item_id origin).items =
      if item_id ∈ origin.items then origin.items.erase item_id else origin.items := by
  unfold removeFromOrigin
  dsimp only
  split <;> split <;> rfl

theorem removeFromOrigin_occupied_of_nil {item_id : Int} {origin : VirtualStorageUnit}
    (h : (removeFromOrigin item_id origin).items = []) :
    (removeFromOrigin item_id origin).occupied = false := by
  rw [removeFromOrigin_items] at h
  unfold removeFromOrigin
  dsimp only
  rw [if_pos h]

theorem removeFromOrigin_occupied_of_ne_nil {item_id : Int} {origin : VirtualStorageUnit}
    (h : (removeFromOrigin item_id origin).items ≠ []) :
    (removeFromOrigin item_id origin).occupied = origin.occupied := by
  rw [removeFromOrigin_items] at h
  unfold removeFromOrigin
  dsimp only
  rw [if_neg h]

theorem removeFromOrigin_position (item_id : Int) (origin : VirtualStorageUnit) :
    (removeFromOrigin item_id origin).position = origin.position := by
  unfold removeFromOrigin
  dsimp only
  split <;> split <;> rfl


/-- Abbreviation used by the proofs: the destination VSU after the success
branch, i.e. the re-read destination with the item appended (`new_vsu1` in
`relocateCommit`). -/
def destAfter (item_id : Int) (st : WarehouseState) (ov : Int)
    (origin : VirtualStorageUnit) (nvid : Int) (nvsu : VirtualStorageUnit) :
    VirtualStorageUnit :=
  appendToDest item_id
    (((updateA st.virtual_units ov (removeFromOrigin item_id origin)).lookup nvid).getD nvsu)

/-! ### `relocateCommit` shape lemmas (all definitional) -/

theorem relocateCommit_virtual_units (item_id : Int) (st : WarehouseState) (now : Nat)
    (reason : String) (item : Item) (ov : Int) (origin : VirtualStorageUnit)
    (nvid : Int) (ncode : String) (nvsu : VirtualStorageUnit) :
    (relocateCommit item_id st now reason item ov origin nvid ncode nvsu).state.virtual_units =
      updateA (updateA st.virtual_units ov (removeFromOrigin item_id origin)) nvid
        (destAfter item_id st ov origin nvid nvsu) := rfl

theorem relocateCommit_items (item_id : Int) (st : WarehouseState) (now : Nat)
    (reason : String) (item : Item) (ov : Int) (origin : VirtualStorageUnit)
    (nvid : Int) (ncode : String) (nvsu : VirtualStorageUnit) :
    (relocateCommit item_id st now reason item ov origin nvid ncode nvsu).state.items =
      updateA st.items item_id
        { item with
            vsu_id := some nvid
            stock_index := ((destAfter item_id st ov origin nvid nvsu).items.length : Int) - 1 } :=
  rfl

theorem relocateCommit_shelves (item_id : Int) (st : WarehouseState) (now : Nat)
    (reason : String) (item : Item) (ov : Int) (origin : VirtualStorageUnit)
    (nvid : Int) (ncode : String) (nvsu : VirtualStorageUnit) :
    (relocateCommit item_id st now reason item ov origin nvid ncode nvsu).state.shelves =
      st.shelves := rfl

theorem relocateCommit_next (item_id : Int) (st : WarehouseState) (now : Nat)
    (reason : String) (item : Item) (ov : Int) (origin : VirtualStorageUnit)
    (nvid : Int) (ncode : String) (nvsu : VirtualStorageUnit) :
    (relocateCommit item_id st now reason item ov origin nvid ncode nvsu).state.next_relocation_id =
      st.next_relocation_id + 1 := rfl

theorem relocateCommit_record (item_id : Int) (st : WarehouseState) (now : Nat)
    (reason : String) (item : Item) (ov : Int) (origin : VirtualStorageUnit)
    (nvid : Int) (ncode : String) (nvsu : VirtualStorageUnit) :
    (relocateCommit item_id st now reason item ov origin nvid ncode nvsu).state.history.relocations =
      insertA st.history.relocations st.next_relocation_id
        { item_id := item_id
          product_id := item.metadata.product_id
          barcode := item.metadata.barcode
          original_vsu_id := ov
          original_vsu_code := origin.code
          new_vsu_id := nvid
          new_vsu_code := ncode
          original_coordinates := origin.position
          new_coordinates := (destAfter item_id st ov origin nvid nvsu).position
          relocated_at := now
          reason := reason } := rfl

theorem relocateCommit_result (item_id : Int) (st : WarehouseState) (now : Nat)
    (reason : String) (item : Item) (ov : Int) (origin : VirtualStorageUnit)
    (nvid : Int) (ncode : String) (nvsu : VirtualStorageUnit) :
    (relocateCommit item_id st now reason item ov origin nvid ncode nvsu).result =
      .ok
        { item_id := item_id
          original_vsu_id := ov
          original_vsu_code := origin.code
          new_vsu_id := nvid
          new_vsu_code := ncode
          new_coordinates := (destAfter item_id st ov origin nvid nvsu).position
          stock_index := ((destAfter item_id st ov origin nvid nvsu).items.length : Int) - 1
          relocated_at := now
          reason := reason } := rfl

/-! ### `destAfter` and state-lookup lemmas -/

theorem destAfter_spec (item_id : Int) {st : WarehouseState} {ov : Int}
    {origin nvsu : VirtualStorageUnit} {nvid : Int}
    (ho : st.virtual_units.lookup ov = some origin)
    (hn : st.virtual_units.lookup nvid = some nvsu)
    (he : nvsu.items = []) :
    (destAfter item_id st ov origin nvid nvsu).items = [item_id] ∧
    (destAfter item_id st ov origin nvid nvsu).occupied = true ∧
    (destAfter item_id st ov origin nvid nvsu).position = nvsu.position := by
  unfold destAfter
  rcases eq_or_ne nvid ov with hcase | hcase
  · subst hcase
    have hoe : origin = nvsu := Option.some.inj (ho.symm.trans hn)
    subst hoe
    rw [lookup_updateA_self st.virtual_units nvid _ (by rw [ho]; rfl)]
    simp only [Option.getD_some]
    have hro : (removeFromOrigin item_id origin).items = [] := by
      rw [removeFromOrigin_items, he]
      simp
    refine ⟨by simp [appendToDest, hro], rfl, ?_⟩
    simp [appendToDest, removeFromOrigin_position]
  · rw [lookup_updateA_ne st.virtual_units ov nvid _ hcase, hn]
    simp only [Option.getD_some]
    exact ⟨by simp [appendToDest, he], rfl, rfl⟩

theorem relocateCommit_lookup_dest {item_id : Int} {st : WarehouseState} {now : Nat}
    {reason : String} {item : Item} {ov : Int} {origin : VirtualStorageUnit}
    {nvid : Int} {ncode : String} {nvsu : VirtualStorageUnit}
    (ho : st.virtual_units.lookup ov = some origin)
    (hn : st.virtual_units.lookup nvid = some nvsu) :
    (relocateCommit item_id st now reason item ov origin nvid ncode
        nvsu).state.virtual_units.lookup nvid =
      some (destAfter item_id st ov origin nvid nvsu) := by
  rw [relocateCommit_virtual_units]
  apply lookup_updateA_self
  rcases eq_or_ne nvid ov with hcase | hcase
  · subst hcase
    rw [lookup_updateA_self st.virtual_units nvid _ (by rw [ho]; rfl)]
    rfl
  · rw [lookup_updateA_ne st.virtual_units ov nvid _ hcase, hn]
    rfl

theorem relocateCommit_lookup_origin {item_id : Int} {st : WarehouseState} {now : Nat}
    {reason : String} {item : Item} {ov : Int} {origin : VirtualStorageUnit}
    {nvid : Int} {ncode : String} {nvsu : VirtualStorageUnit}
    (ho : st.virtual_units.lookup ov = some origin)
    (hne : nvid ≠ ov) :
    (relocateCommit item_id st now reason item ov origin nvid ncode
        nvsu).state.virtual_units.lookup ov =
      some (removeFromOrigin item_id origin) := by
  rw [relocateCommit_virtual_units]
  rw [lookup_updateA_ne _ _ _ _ (Ne.symm hne)]
  exact lookup_updateA_self _ _ _ (by rw [ho]; rfl)

theorem relocateCommit_lookup_item {item_id : Int} {st : WarehouseState} {now : Nat}
    {reason : String} {item : Item} {ov : Int} {origin : VirtualStorageUnit}
    {nvid : Int} {ncode : String} {nvsu : VirtualStorageUnit}
    (hi : st.items.lookup item_id = some item) :
    (relocateCommit item_id st now reason item ov origin nvid ncode
        nvsu).state.items.lookup item_id =
      some
        { item with
            vsu_id := some nvid
            stock_index := ((destAfter item_id st ov origin nvid nvsu).items.length : Int) - 1 } := by
  rw [relocateCommit_items]
  exact lookup_updateA_self _ _ _ (by rw [hi]; rfl)

theorem relocateCommit_lookup_record (item_id : Int) (st : WarehouseState) (now : Nat)
    (reason : String) (item : Item) (ov : Int) (origin : VirtualStorageUnit)
    (nvid : Int) (ncode : String) (nvsu : VirtualStorageUnit) :
    (relocateCommit item_id st now reason item ov origin nvid ncode
        nvsu).state.history.relocations.lookup st.next_relocation_id =
      some
        { item_id := item_id
          product_id := item.metadata.product_id
          barcode := item.metadata.barcode
          original_vsu_id := ov
          original_vsu_code := origin.code
          new_vsu_id := nvid
          new_vsu_code := ncode
          original_coordinates := origin.position
          new_coordinates := (destAfter item_id st ov origin nvid nvsu).position
          relocated_at := now
          reason := reason } := by
  rw [relocateCommit_record]
  exact lookup_insertA_self _ _ _

/-- Classification of `relocate_item` errors into the spec's caller-visible
HTTP classes: the three guarded `HTTPException`s are; the uncaught
`KeyError` is not. -/
def isHttpError : RelocError → Bool
  | .itemNotFound _ => true
  | .itemNotPlaced _ => true
  | .noEmptyVsu _ => true
  | .keyError _ => false

/-! ### Claim theorems -/

/-- C5: `_item_fits_vsu` is true iff the item's width, height and depth are
each ≤ the slot's corresponding dimension (axis-aligned, no rotation), and
`_calculate_vsu_fit_score` equals the slot's volume minus the item's volume
plus a locality bonus of −1000 when the slot is on the item's current
shelf, −500 when it is only on the item's current rack, and 0 otherwise;
the slot's volume is its stored `volume` attribute when that exists
(`hasattr`) and width·height·depth otherwise, the item's volume is
width·height·depth. -/
theorem fit_predicate_and_score_formula (item : Item) (vsu : VirtualStorageUnit)
    (s r : Bool) :
    (item_fits_vsu item vsu = true ↔
      (item.metadata.dimensions.width ≤ vsu.dimensions.width ∧
       item.metadata.dimensions.height ≤ vsu.dimensions.height ∧
       item.metadata.dimensions.depth ≤ vsu.dimensions.depth)) ∧
    calculate_vsu_fit_score item vsu s r =
      vsuVolume vsu - itemVolume item + (if s then -1000 else if r then -500 else 0) ∧
    itemVolume item =
      item.metadata.dimensions.width * item.metadata.dimensions.height *
        item.metadata.dimensions.depth ∧
    vsuVolume vsu =
      (vsu.dimensions.volume?).getD
        (vsu.dimensions.width * vsu.dimensions.height * vsu.dimensions.depth) := by
  refine ⟨?_, rfl, rfl, ?_⟩
  · simp [item_fits_vsu, and_assoc]
  · cases h : vsu.dimensions.volume? <;> simp [vsuVolume, h]

/-- C8: immediately after every successful save, the metadata count equals
the record-mapping size — for the history (`total_relocations =
len(relocations)`) and the archive (`total_items = len(items)`), both in
the in-memory aggregate and in the written document. -/
theorem save_metadata_count_invariant (h : RelocationHistory) (a : ProductArchive)
    (now : Nat) :
    ((save_relocation_history h now).1.metadata.total_relocations =
        (save_relocation_history h now).1.relocations.length) ∧
    ((save_relocation_history h now).2.metadata.total_relocations =
        (save_relocation_history h now).2.relocations.length) ∧
    ((save_product_archive a now).1.metadata.total_items =
        (save_product_archive a now).1.items.length) ∧
    ((save_product_archive a now).2.metadata.total_items =
        (save_product_archive a now).2.items.length) :=
  ⟨rfl, rfl, rfl, rfl⟩

/-- C7: for both stores, loading a file that exists but fails to parse or
validate returns a fresh empty aggregate (zero records) — the embedded
load is total, so nothing is raised to the caller — and immediately
overwrites the corrupt file with exactly that empty aggregate's saved
document. -/
theorem corrupt_load_fresh_and_overwrite (next now : Nat) :
    ((load_relocation_history .corrupt next now).state.relocations = []) ∧
    ((load_relocation_history .corrupt next now).state =
      (save_relocation_history emptyHistory now).1) ∧
    ((load_relocation_history .corrupt next now).written =
      some (save_relocation_history emptyHistory now).2) ∧
    ((save_relocation_history emptyHistory now).2.relocations = []) ∧
    ((load_product_archive .corrupt now).state.items = []) ∧
    ((load_product_archive .corrupt now).state =
      (save_product_archive emptyArchive now).1) ∧
    ((load_product_archive .corrupt now).written =
      some (save_product_archive emptyArchive now).2) ∧
    ((save_product_archive emptyArchive now).2.items = []) :=
  ⟨rfl, rfl, rfl, rfl, rfl, rfl, rfl, rfl⟩

/-- A same-shelf slot with a large stored volume (wasted space 2000 for the
unit item). -/
def ceBigVsu : VirtualStorageUnit where
  code := "BIG"
  dimensions := { width := 20, height := 10, depth := 10, volume? := some 2001 }
  position := { x := 0, y := 0, z := 0 }
  shelf_id := 1
  items := []
  occupied := false

/-- An off-shelf slot with a tiny stored volume (wasted space 0 for the
unit item). -/
def ceSmallVsu : VirtualStorageUnit where
  code := "SMALL"
  dimensions := { width := 20, height := 10, depth := 10, volume? := some 1 }
  position := { x := 0, y := 0, z := 0 }
  shelf_id := 2
  items := []
  occupied := false

/-- C2 counterexample: the locality bonuses are finite (−1000/−500), so the
tier ordering does not hold "regardless of the wasted-space values": a
same-shelf candidate with wasted space 2000 scores 1000, which is not lower
than a same-rack candidate's −500 or an elsewhere candidate's 0 when those
have wasted space 0. -/
theorem locality_tier_counterexample :
    ¬ (calculate_vsu_fit_score exItem ceBigVsu true false <
        calculate_vsu_fit_score exItem ceSmallVsu false true) ∧
    ¬ (calculate_vsu_fit_score exItem ceBigVsu true false <
        calculate_vsu_fit_score exItem ceSmallVsu false false) ∧
    item_fits_vsu exItem ceBigVsu = true ∧ item_fits_vsu exItem ceSmallVsu = true ∧
    ceBigVsu.items = [] ∧ ceSmallVsu.items = [] := by decide

/-- C2 amended: the tier ordering (same shelf beats same rack beats
elsewhere) holds whenever the wasted-space difference between the two
candidates is less than the bonus gap — 500 between adjacent tiers, 1000
between same-shelf and elsewhere (so in particular for all "realistic"
volume differences below 500, as the spec assumes); within the same
locality tier, the candidate with strictly less wasted space always has
the strictly lower score, unconditionally. -/
theorem locality_tier_ordering (item : Item) (v1 v2 : VirtualStorageUnit) (b1 b2 : Bool) :
    ((vsuVolume v1 - itemVolume item) < (vsuVolume v2 - itemVolume item) + 500 →
      calculate_vsu_fit_score item v1 true b1 <
        calculate_vsu_fit_score item v2 false true) ∧
    ((vsuVolume v1 - itemVolume item) < (vsuVolume v2 - itemVolume item) + 1000 →
      calculate_vsu_fit_score item v1 true b1 <
        calculate_vsu_fit_score item v2 false false) ∧
    ((vsuVolume v1 - itemVolume item) < (vsuVolume v2 - itemVolume item) + 500 →
      calculate_vsu_fit_score item v1 false true <
        calculate_vsu_fit_score item v2 false false) ∧
    ((vsuVolume v1 - itemVolume item) < (vsuVolume v2 - itemVolume item) →
      calculate_vsu_fit_score item v1 b1 b2 <
        calculate_vsu_fit_score item v2 b1 b2) := by
  unfold calculate_vsu_fit_score
  refine ⟨fun h => ?_, fun h => ?_, fun h => ?_, fun h => ?_⟩ <;>
    cases b1 <;> cases b2 <;> simp only [if_true, if_false, Bool.false_eq_true] <;> linarith

/-- Witness for the amended C2 at concrete slots: wasted space 0 (same
shelf) against wasted space 2000 (other tiers), and in-tier dominance. -/
theorem locality_tier_ordering_witness :
    (calculate_vsu_fit_score exItem ceSmallVsu true false <
      calculate_vsu_fit_score exItem ceBigVsu false true) ∧
    (calculate_vsu_fit_score exItem ceSmallVsu true false <
      calculate_vsu_fit_score exItem ceBigVsu false false) ∧
    (calculate_vsu_fit_score exItem ceSmallVsu false true <
      calculate_vsu_fit_score exItem ceBigVsu false false) ∧
    (calculate_vsu_fit_score exItem ceSmallVsu false false <
      calculate_vsu_fit_score exItem ceBigVsu false false) :=
  ⟨(locality_tier_ordering exItem ceSmallVsu ceBigVsu false false).1 (by decide),
   (locality_tier_ordering exItem ceSmallVsu ceBigVsu false false).2.1 (by decide),
   (locality_tier_ordering exItem ceSmallVsu ceBigVsu false false).2.2.1 (by decide),
   (locality_tier_ordering exItem ceSmallVsu ceBigVsu false false).2.2.2 (by decide)⟩

/-- C10: when the item exists and its non-null `vsu_id` is absent from the
`virtual_units` mapping, `relocate_item` fails with the unguarded dict
access's `KeyError` — not one of the three caller-visible HTTP error
classes — before any search or mutation: the state is returned unchanged
and nothing is written. -/
theorem dangling_vsu_id_keyerror (item_id : Int) (st : WarehouseState) (now : Nat)
    (reason : String) (item : Item) (ov : Int)
    (hit : st.items.lookup item_id = some item)
    (hv : item.vsu_id = some ov)
    (habs : st.virtual_units.lookup ov = none) :
    (relocate_item item_id st now reason).result = .error (.keyError ov) ∧
    (relocate_item item_id st now reason).state = st ∧
    (relocate_item item_id st now reason).written = none ∧
    isHttpError (.keyError ov) = false := by
  refine ⟨?_, ?_, ?_, rfl⟩ <;> simp only [relocate_item, hit, hv, habs]

/-- The item of the dangling-`vsu_id` scenario: it points at VSU 7, which
does not exist. -/
def ce10Item : Item where
  id := 1
  metadata :=
    { product_id := 2
      barcode := "Y2"
      dimensions := { width := 1, height := 1, depth := 1 } }
  vsu_id := some 7
  stock_index := 0

/-- A warehouse whose only item points at a VSU id absent from the
`virtual_units` mapping; there are no shelves, hence no fitting slot
anywhere. -/
def ce10State : WarehouseState where
  items := [(1, ce10Item)]
  virtual_units := []
  shelves := []
  history := emptyHistory
  next_relocation_id := 1

/-- Witness for C10 at the concrete dangling-`vsu_id` state. -/
theorem dangling_vsu_id_keyerror_witness :
    (relocate_item 1 ce10State 0 "obstruction_removal").result = .error (.keyError 7) ∧
    (relocate_item 1 ce10State 0 "obstruction_removal").state = ce10State ∧
    (relocate_item 1 ce10State 0 "obstruction_removal").written = none ∧
    isHttpError (.keyError 7) = false :=
  dangling_vsu_id_keyerror 1 ce10State 0 "obstruction_removal" ce10Item 7 rfl rfl rfl

/-- The result dict of relocating item 42 in the concrete scenario: moved
from VSU 103 to the same-shelf VSU 107, stock index 0. -/
def stdRes : RelocResult where
  item_id := 42
  original_vsu_id := 103
  original_vsu_code := "A-01-03"
  new_vsu_id := 107
  new_vsu_code := "A-01-07"
  new_coordinates := { x := 4, y := 5, z := 6 }
  stock_index := 0
  relocated_at := 5
  reason := "obstruction_removal"

example : (relocate_item 42 stdState 5).result = .ok stdRes := rfl

/-! ### Auxiliary facts about `maxKey` -/

theorem foldl_max_ge_acc {α : Type} (m : List (Nat × α)) (acc : Nat) :
    acc ≤ m.foldl (fun a p => max a p.1) acc := by
  induction m generalizing acc with
  | nil => exact le_refl acc
  | cons q rest ih => exact le_trans (le_max_left acc q.1) (ih (max acc q.1))

theorem mem_le_foldl_max {α : Type} (m : List (Nat × α)) (p : Nat × α) (hp : p ∈ m) :
    ∀ acc, p.1 ≤ m.foldl (fun a q => max a q.1) acc := by
  induction m with
  | nil => cases hp
  | cons q rest ih =>
    intro acc
    rcases List.mem_cons.mp hp with h | h
    · rw [h]
      exact le_trans (le_max_right acc q.1) (foldl_max_ge_acc rest (max acc q.1))
    · exact ih h (max acc q.1)

theorem mem_le_maxKey {α : Type} (m : List (Nat × α)) (p : Nat × α) (hp : p ∈ m) :
    p.1 ≤ maxKey m :=
  mem_le_foldl_max m p hp 0

/-- An arbitrary relocation record used to populate concrete history
fixtures. -/
def dummyRec : RelocationRecord where
  item_id := 42
  product_id := 7
  barcode := "X1"
  original_vsu_id := 103
  original_vsu_code := "A-01-03"
  new_vsu_id := 107
  new_vsu_code := "A-01-07"
  original_coordinates := { x := 1, y := 2, z := 3 }
  new_coordinates := { x := 4, y := 5, z := 6 }
  relocated_at := 0
  reason := "obstruction_removal"

/-- An empty on-disk history document (no records, metadata present). -/
def emptyHistFile : HistoryFile where
  relocations := []
  metadata := some (defaultHistoryMetadata 0)

/-- C6 counterexample: loading an *empty* history store does not set the
next id to 1 — the source only updates the counter when the loaded record
dict is non-empty, so a counter that had advanced to 5 stays 5 after
reloading an empty file. -/
theorem next_id_empty_reload_counterexample :
    (load_relocation_history (.parsed emptyHistFile) 5 0).next_relocation_id = 5 ∧
    ¬ (load_relocation_history (.parsed emptyHistFile) 5 0).next_relocation_id = 1 := by
  decide

/-- C6 amended: loading a *non-empty* history file sets the next id to
`max(existing ids) + 1` (hence strictly above every persisted id, so ids
are never reused); loading an empty store leaves the in-memory counter
unchanged — it equals 1 only because the global is initialised to 1 in a
fresh process; each successful relocation stores its record under the
current next id and increments the counter.  In particular, after
persisting ids `1..N`, reloading, and relocating once, the new record gets
id `N + 1`. -/
theorem next_id_allocation (data : HistoryFile) (next now : Nat)
    (item_id : Int) (st : WarehouseState) (reason : String) (res : RelocResult) :
    (data.relocations ≠ [] →
      (load_relocation_history (.parsed data) next now).next_relocation_id =
        maxKey data.relocations + 1) ∧
    (data.relocations ≠ [] → ∀ p ∈ data.relocations,
      p.1 < (load_relocation_history (.parsed data) next now).next_relocation_id) ∧
    (data.relocations = [] →
      (load_relocation_history (.parsed data) next now).next_relocation_id = next) ∧
    ((relocate_item item_id st now reason).result = .ok res →
      (relocate_item item_id st now reason).state.next_relocation_id =
          st.next_relocation_id + 1 ∧
      ∃ rec, (relocate_item item_id st now reason).state.history.relocations.lookup
            st.next_relocation_id = some rec ∧
        rec.item_id = item_id ∧ rec.relocated_at = now ∧ rec.reason = reason) := by
  refine ⟨?_, ?_, ?_, ?_⟩
  · intro hne
    simp [load_relocation_history, hne]
  · intro hne p hp
    have h1 : (load_relocation_history (.parsed data) next now).next_relocation_id =
        maxKey data.relocations + 1 := by simp [load_relocation_history, hne]
    rw [h1]
    exact Nat.lt_succ_of_le (mem_le_maxKey data.relocations p hp)
  · intro hnil
    simp [load_relocation_history, hnil]
  · intro hok
    obtain ⟨item, ov, origin, nvid, ncode, nvsu, _, _, _, _, heq⟩ :=
      relocate_item_ok_inv hok
    rw [heq]
    refine ⟨relocateCommit_next .., ?_⟩
    exact ⟨_, relocateCommit_lookup_record .., rfl, rfl, rfl⟩

/-- A history file persisting records 1..3. -/
def histFile3 : HistoryFile where
  relocations := [(1, dummyRec), (2, dummyRec), (3, dummyRec)]
  metadata := some (defaultHistoryMetadata 3)

/-- Witness for the amended C6: reloading records 1..3 yields next id 4
(= max + 1, above every persisted id), and a successful relocation from a
state with counter 4 stores its record under id 4 and moves the counter
to 5. -/
theorem next_id_allocation_witness :
    ((load_relocation_history (.parsed histFile3) 1 0).next_relocation_id =
        maxKey histFile3.relocations + 1) ∧
    (maxKey histFile3.relocations + 1 = 4) ∧
    ((load_relocation_history (.parsed emptyHistFile) 1 0).next_relocation_id = 1) ∧
    ((relocate_item 42 stdState 5 "obstruction_removal").state.next_relocation_id =
        stdState.next_relocation_id + 1 ∧
      ∃ rec, (relocate_item 42 stdState 5
              "obstruction_removal").state.history.relocations.lookup
            stdState.next_relocation_id = some rec ∧
        rec.item_id = 42 ∧ rec.relocated_at = 5 ∧ rec.reason = "obstruction_removal") :=
  ⟨(next_id_allocation histFile3 1 0 42 stdState "obstruction_removal" stdRes).1
      (by decide),
   by decide,
   (next_id_allocation emptyHistFile 1 0 42 stdState "obstruction_removal" stdRes).2.2.1
      rfl,
   (next_id_allocation histFile3 1 5 42 stdState "obstruction_removal" stdRes).2.2.2
      rfl⟩

/-- The candidate list is empty iff no slot anywhere passes the filters:
no shelf lists a VSU id that resolves to an empty VSU the item fits. -/
theorem no_passing_slot_iff {item : Item} {shelf_id : Int} {vsus : VsuMap}
    {shelves : ShelfMap} :
    candidatesFor item shelf_id vsus shelves = [] ↔
      ¬ ∃ sid shelf vid vsu, (sid, shelf) ∈ shelves ∧ vid ∈ shelf.virtual_units ∧
          vsus.lookup vid = some vsu ∧ vsu.items = [] ∧
          item_fits_vsu item vsu = true := by
  constructor
  · intro hnil hex
    obtain ⟨sid, shelf, vid, vsu, hsh, hvm, hl, he, hf⟩ := hex
    obtain ⟨c, hc, _, _, _⟩ := considerVsu_eq_some sid shelf hl he hf
    have hmem : c ∈ candidatesFor item shelf_id vsus shelves :=
      mem_candidatesFor.mpr ⟨sid, shelf, vid, hsh, hvm, hc⟩
    rw [hnil] at hmem
    cases hmem
  · intro hno
    by_contra hne
    obtain ⟨c, hc⟩ := List.exists_mem_of_ne_nil _ hne
    obtain ⟨sid, shelf, vid, hsh, hvm, hcv⟩ := mem_candidatesFor.mp hc
    obtain ⟨h1, h2, h3, h4, _, _⟩ := considerVsu_some_spec hcv
    exact hno ⟨sid, shelf, vid, c.vsu, hsh, hvm, h2, h3, h4⟩

/-- C3 amended: `relocate_item` fails with the 404-class `ItemNotFound`
exactly when the item id is absent; with the 400-class `ItemNotPlaced`
exactly when the item exists but its `vsu_id` is null; with the 503-class
`NoEmptyVsu` exactly when the item exists, its `vsu_id` is non-null *and
present in the `virtual_units` mapping*, and no fitting empty slot exists
anywhere; and on every error the inventory, the history aggregate and the
counter are returned unchanged and nothing is written.  (Without the added
"present in the mapping" condition the 503 equivalence fails: a dangling
`vsu_id` raises `KeyError` instead — see the counterexample.) -/
theorem relocate_error_cases (item_id : Int) (st : WarehouseState) (now : Nat)
    (reason : String) :
    ((relocate_item item_id st now reason).result = .error (.itemNotFound item_id) ↔
      st.items.lookup item_id = none) ∧
    ((relocate_item item_id st now reason).result = .error (.itemNotPlaced item_id) ↔
      ∃ item, st.items.lookup item_id = some item ∧ item.vsu_id = none) ∧
    ((∃ sid, (relocate_item item_id st now reason).result = .error (.noEmptyVsu sid)) ↔
      ∃ item ov origin, st.items.lookup item_id = some item ∧ item.vsu_id = some ov ∧
        st.virtual_units.lookup ov = some origin ∧
        ¬ ∃ sid shelf vid vsu, (sid, shelf) ∈ st.shelves ∧ vid ∈ shelf.virtual_units ∧
            st.virtual_units.lookup vid = some vsu ∧ vsu.items = [] ∧
            item_fits_vsu item vsu = true) ∧
    (∀ e, (relocate_item item_id st now reason).result = .error e →
      (relocate_item item_id st now reason).state = st ∧
      (relocate_item item_id st now reason).written = none) := by
  cases hit : st.items.lookup item_id with
  | none =>
    have hres : relocate_item item_id st now reason =
        { result := .error (.itemNotFound item_id), state := st, written := none } := by
      simp only [relocate_item, hit]
    rw [hres]
    exact ⟨by simp, by simp, by simp, fun e _ => ⟨rfl, rfl⟩⟩
  | some item =>
    cases hv : item.vsu_id with
    | none =>
      have hres : relocate_item item_id st now reason =
          { result := .error (.itemNotPlaced item_id), state := st, written := none } := by
        simp only [relocate_item, hit, hv]
      rw [hres]
      refine ⟨by simp, ?_, by simp [hv], fun e _ => ⟨rfl, rfl⟩⟩
      constructor
      · intro _
        exact ⟨item, rfl, hv⟩
      · intro _
        rfl
    | some ov =>
      cases ho : st.virtual_units.lookup ov with
      | none =>
        have hres : relocate_item item_id st now reason =
            { result := .error (.keyError ov), state := st, written := none } := by
          simp only [relocate_item, hit, hv, ho]
        rw [hres]
        exact ⟨by simp, by simp [hv], by simp [hv, ho], fun e _ => ⟨rfl, rfl⟩⟩
      | some origin =>
        cases hf : find_empty_vsu_for_relocate item origin.shelf_id st.items
            st.virtual_units st.shelves with
        | none =>
          have hres : relocate_item item_id st now reason =
              { result := .error (.noEmptyVsu origin.shelf_id), state := st,
                written := none } := by
            simp only [relocate_item, hit, hv, ho, hf]
          rw [hres]
          have hnp := no_passing_slot_iff.mp (find_eq_none_iff.mp hf)
          refine ⟨by simp, by simp [hv], ?_, fun e _ => ⟨rfl, rfl⟩⟩
          constructor
          · intro _
            exact ⟨item, ov, origin, rfl, hv, ho, hnp⟩
          · intro _
            exact ⟨origin.shelf_id, rfl⟩
        | some tpl =>
          obtain ⟨nvid, ncode, nvsu⟩ := tpl
          have hres : relocate_item item_id st now reason =
              relocateCommit item_id st now reason item ov origin nvid ncode nvsu := by
            simp only [relocate_item, hit, hv, ho, hf]
          rw [hres, relocateCommit_result]
          have hpass : ∃ sid shelf vid vsu, (sid, shelf) ∈ st.shelves ∧
              vid ∈ shelf.virtual_units ∧ st.virtual_units.lookup vid = some vsu ∧
              vsu.items = [] ∧ item_fits_vsu item vsu = true := by
            have hne : candidatesFor item origin.shelf_id st.virtual_units st.shelves ≠ [] := by
              intro hnil
              rw [find_nil hnil] at hf
              cases hf
            by_contra hno
            exact hne (no_passing_slot_iff.mpr hno)
          refine ⟨by simp, by simp [hv], ?_, fun e he => by cases he⟩
          constructor
          · rintro ⟨sid, hsid⟩
            cases hsid
          · rintro ⟨item', ov', origin', hit', hv', ho', hno⟩
            injection hit' with hii
            subst hii
            rw [hv] at hv'
            injection hv' with hoo
            subst hoo
            exact absurd hpass hno

/-- An item with a null `vsu_id`, violating the relocation precondition. -/
def ceNoVsuItem : Item where
  id := 43
  metadata :=
    { product_id := 3
      barcode := "Z3"
      dimensions := { width := 1, height := 1, depth := 1 } }
  vsu_id := none
  stock_index := 0

/-- A warehouse holding only the unplaced item 43. -/
def ce400State : WarehouseState where
  items := [(43, ceNoVsuItem)]
  virtual_units := []
  shelves := []
  history := emptyHistory
  next_relocation_id := 1

/-- Witness for the amended C3: a missing item id yields the 404-class
error and leaves the state untouched; an unplaced item yields the
400-class error. -/
theorem relocate_error_cases_witness :
    (relocate_item 99 stdState 0 "r").result = .error (.itemNotFound 99) ∧
    (relocate_item 99 stdState 0 "r").state = stdState ∧
    (relocate_item 43 ce400State 0 "r").result = .error (.itemNotPlaced 43) :=
  ⟨(relocate_error_cases 99 stdState 0 "r").1.mpr (by decide),
   ((relocate_error_cases 99 stdState 0 "r").2.2.2 _
      ((relocate_error_cases 99 stdState 0 "r").1.mpr (by decide))).1,
   (relocate_error_cases 43 ce400State 0 "r").2.1.mpr ⟨ceNoVsuItem, by decide, rfl⟩⟩

/-- C3 counterexample: in a warehouse with no shelves at all (so no fitting
empty slot exists anywhere) but whose item 1 carries a `vsu_id` absent from
the VSU mapping, the failure is the uncaught `KeyError`, not the 503-class
ResourceExhausted the claim's "exactly when" requires. -/
theorem relocate_error_cases_counterexample :
    ce10State.shelves = [] ∧
    (relocate_item 1 ce10State 0 "obstruction_removal").result = .error (.keyError 7) ∧
    isHttpError (.keyError 7) = false :=
  ⟨rfl, rfl, rfl⟩

/-- C9: after every successful `relocate_item` call, the destination VSU's
occupant list is exactly the singleton of the relocated item id (the
candidate search only admits VSUs with an empty occupant list), and the
`stock_index` stored on the item and returned to the caller is 0. -/
theorem relocate_dest_singleton (item_id : Int) (st : WarehouseState) (now : Nat)
    (reason : String) (res : RelocResult)
    (hok : (relocate_item item_id st now reason).result = .ok res) :
    ∃ dest',
      (relocate_item item_id st now reason).state.virtual_units.lookup res.new_vsu_id =
        some dest' ∧
      dest'.items = [item_id] ∧
      res.stock_index = 0 ∧
      ∃ item', (relocate_item item_id st now reason).state.items.lookup item_id =
          some item' ∧
        item'.stock_index = 0 ∧ item'.vsu_id = some res.new_vsu_id := by
  obtain ⟨item, ov, origin, nvid, ncode, nvsu, hit, hv, ho, hf, heq⟩ :=
    relocate_item_ok_inv hok
  obtain ⟨hn, he, _, _⟩ := find_eq_some_spec hf
  obtain ⟨hd1, hd2, hd3⟩ := destAfter_spec item_id ho hn he
  rw [heq, relocateCommit_result] at hok
  have hres := (Except.ok.inj hok).symm
  subst hres
  rw [heq]
  refine ⟨destAfter item_id st ov origin nvid nvsu,
    relocateCommit_lookup_dest ho hn, hd1, ?_, ?_⟩
  · show ((destAfter item_id st ov origin nvid nvsu).items.length : Int) - 1 = 0
    rw [hd1]
    rfl
  · refine ⟨_, relocateCommit_lookup_item hit, ?_, rfl⟩
    show ((destAfter item_id st ov origin nvid nvsu).items.length : Int) - 1 = 0
    rw [hd1]
    rfl

/-- Witness for C9: the concrete scenario relocation lands item 42 alone in
VSU 107 with stock index 0. -/
theorem relocate_dest_singleton_witness :
    ∃ dest',
      (relocate_item 42 stdState 5 "obstruction_removal").state.virtual_units.lookup
          stdRes.new_vsu_id = some dest' ∧
      dest'.items = [42] ∧
      stdRes.stock_index = 0 ∧
      ∃ item', (relocate_item 42 stdState 5 "obstruction_removal").state.items.lookup 42 =
          some item' ∧
        item'.stock_index = 0 ∧ item'.vsu_id = some stdRes.new_vsu_id :=
  relocate_dest_singleton 42 stdState 5 "obstruction_removal" stdRes rfl

/-- C1 amended: for every successful `relocate_item` on an item that
exists, has a non-null home VSU, occurs *exactly once* in that VSU's
occupant list, and whose home VSU's `occupied` flag is initially true
(i.e. consistent occupancy data), afterwards: the item id is gone from the
origin's occupant list (the first occurrence was removed), the list's
length decreased by one; the origin's `occupied` flag is false iff its
occupant list became empty; the item id was appended to the destination's
occupant list, whose length grew by one (from zero), and the destination's
`occupied` flag is true; the item's `vsu_id` equals the destination VSU id
and its `stock_index` — also returned to the caller — equals the length of
the destination's occupant list minus 1.  (Without the exactly-once and
initial-flag hypotheses the removal clause and the `occupied`-iff clause
fail on the code — see the counterexample.) -/
theorem relocate_success_postconditions (item_id : Int) (st : WarehouseState)
    (now : Nat) (reason : String) (item : Item) (ov : Int)
    (origin : VirtualStorageUnit) (res : RelocResult)
    (hit : st.items.lookup item_id = some item)
    (hv : item.vsu_id = some ov)
    (ho : st.virtual_units.lookup ov = some origin)
    (hcount : origin.items.count item_id = 1)
    (hocc : origin.occupied = true)
    (hok : (relocate_item item_id st now reason).result = .ok res) :
    ∃ origin' dest dest' item',
      (relocate_item item_id st now reason).state.virtual_units.lookup ov = some origin' ∧
      origin'.items = origin.items.erase item_id ∧
      item_id ∉ origin'.items ∧
      origin.items.length = origin'.items.length + 1 ∧
      (origin'.occupied = false ↔ origin'.items = []) ∧
      st.virtual_units.lookup res.new_vsu_id = some dest ∧
      dest.items = [] ∧
      (relocate_item item_id st now reason).state.virtual_units.lookup res.new_vsu_id =
        some dest' ∧
      dest'.items = dest.items ++ [item_id] ∧
      dest'.items.length = dest.items.length + 1 ∧
      dest'.occupied = true ∧
      (relocate_item item_id st now reason).state.items.lookup item_id = some item' ∧
      item'.vsu_id = some res.new_vsu_id ∧
      item'.stock_index = (dest'.items.length : Int) - 1 ∧
      res.stock_index = (dest'.items.length : Int) - 1 := by
  obtain ⟨item0, ov0, origin0, nvid, ncode, nvsu, hit0, hv0, ho0, hf, heq⟩ :=
    relocate_item_ok_inv hok
  rw [hit] at hit0
  injection hit0 with hi0
  subst hi0
  rw [hv] at hv0
  injection hv0 with hv0'
  subst hv0'
  rw [ho] at ho0
  injection ho0 with ho0'
  subst ho0'
  obtain ⟨hn, he, _, _⟩ := find_eq_some_spec hf
  have hmem : item_id ∈ origin.items := by
    refine List.count_pos_iff.mp ?_
    rw [hcount]
    exact Nat.zero_lt_one
  have hone : origin.items ≠ [] := by
    intro hnil
    rw [hnil] at hmem
    cases hmem
  have hne : nvid ≠ ov := by
    intro hcase
    rw [hcase, ho] at hn
    injection hn with hnn
    refine hone ?_
    rw [hnn, he]
  obtain ⟨hd1, hd2, hd3⟩ := destAfter_spec item_id ho hn he
  rw [heq, relocateCommit_result] at hok
  have hres := (Except.ok.inj hok).symm
  subst hres
  rw [heq]
  refine ⟨removeFromOrigin item_id origin, nvsu,
    destAfter item_id st ov origin nvid nvsu, _,
    relocateCommit_lookup_origin ho hne, ?_, ?_, ?_, ?_, hn, he,
    relocateCommit_lookup_dest ho hn, ?_, ?_, hd2,
    relocateCommit_lookup_item hit, rfl, rfl, rfl⟩
  · rw [removeFromOrigin_items, if_pos hmem]
  · rw [removeFromOrigin_items, if_pos hmem]
    refine List.count_eq_zero.mp ?_
    rw [List.count_erase_self, hcount]
  · rw [removeFromOrigin_items, if_pos hmem, List.length_erase_of_mem hmem]
    have hp : 0 < origin.items.length := List.length_pos_of_mem hmem
    omega
  · by_cases hcase : (removeFromOrigin item_id origin).items = []
    · simp [removeFromOrigin_occupied_of_nil hcase, hcase]
    · simp [removeFromOrigin_occupied_of_ne_nil hcase, hocc, hcase]
  · rw [hd1, he]
    rfl
  · rw [hd1, he]
    rfl

/-- The C1-counterexample origin VSU: item 42 occurs twice in its occupant
list and its `occupied` flag is (inconsistently) false. -/
def ceC1Origin : VirtualStorageUnit where
  code := "A-01-03"
  dimensions := { width := 100, height := 50, depth := 30 }
  position := { x := 1, y := 2, z := 3 }
  shelf_id := 1
  items := [42, 42]
  occupied := false

/-- The C1-counterexample warehouse: item 42 sits in VSU 103 (listed
twice), and the empty same-shelf VSU 107 is available as destination. -/
def ceC1State : WarehouseState where
  items := [(42, item42)]
  virtual_units := [(103, ceC1Origin), (107, vsu107)]
  shelves := [(1, shelfA)]
  history := emptyHistory
  next_relocation_id := 1

/-- The origin VSU after the C1-counterexample relocation: `list.remove`
dropped only the first occurrence of 42, and the `occupied` flag — only
ever cleared, never set, by the code — is still false on a non-empty
list. -/
def ceC1OriginAfter : VirtualStorageUnit where
  code := "A-01-03"
  dimensions := { width := 100, height := 50, depth := 30 }
  position := { x := 1, y := 2, z := 3 }
  shelf_id := 1
  items := [42]
  occupied := false

/-- C1 counterexample: a successful relocation (the claim's stated
hypotheses hold: the item exists, has a non-null home VSU, and is present
in its occupant list) after which the item id is still present in the
origin's occupant list, and the origin's `occupied` flag is false although
the occupant list is non-empty — refuting both the removal clause and the
`occupied`-iff clause of the claim as stated. -/
theorem relocate_success_postconditions_counterexample :
    (relocate_item 42 ceC1State 0 "obstruction_removal").result.isOk = true ∧
    ceC1State.items.lookup 42 = some item42 ∧
    item42.vsu_id = some 103 ∧
    ceC1State.virtual_units.lookup 103 = some ceC1Origin ∧
    42 ∈ ceC1Origin.items ∧
    (relocate_item 42 ceC1State 0 "obstruction_removal").state.virtual_units.lookup 103 =
      some ceC1OriginAfter ∧
    42 ∈ ceC1OriginAfter.items ∧
    ceC1OriginAfter.items ≠ [] ∧
    ceC1OriginAfter.occupied = false := by decide

/-- Witness for the amended C1 at the concrete scenario (item 42 occurs
exactly once in VSU 103, whose flag is true). -/
theorem relocate_success_postconditions_witness :
    ∃ origin' dest dest' item',
      (relocate_item 42 stdState 5 "obstruction_removal").state.virtual_units.lookup 103 =
        some origin' ∧
      origin'.items = vsu103.items.erase 42 ∧
      42 ∉ origin'.items ∧
      vsu103.items.length = origin'.items.length + 1 ∧
      (origin'.occupied = false ↔ origin'.items = []) ∧
      stdState.virtual_units.lookup stdRes.new_vsu_id = some dest ∧
      dest.items = [] ∧
      (relocate_item 42 stdState 5 "obstruction_removal").state.virtual_units.lookup
          stdRes.new_vsu_id = some dest' ∧
      dest'.items = dest.items ++ [42] ∧
      dest'.items.length = dest.items.length + 1 ∧
      dest'.occupied = true ∧
      (relocate_item 42 stdState 5 "obstruction_removal").state.items.lookup 42 =
        some item' ∧
      item'.vsu_id = some stdRes.new_vsu_id ∧
      item'.stock_index = (dest'.items.length : Int) - 1 ∧
      stdRes.stock_index = (dest'.items.length : Int) - 1 :=
  relocate_success_postconditions 42 stdState 5 "obstruction_removal" item42 103 vsu103
    stdRes (by decide) (by decide) (by decide) (by decide) (by decide) rfl

/-- C4: `find_empty_vsu_for_relocate` scans every VSU id listed by every
shelf: it returns `none` exactly when no listed VSU resolves to an empty
slot the item fits (first conjunct); every collected candidate is such a
slot, scored with locality relative to the origin shelf (second conjunct),
and every such slot yields a collected candidate (third conjunct — nothing
is skipped beyond the two filters); on success the returned slot is one
that already exists in the `virtual_units` mapping (no slot creation), and
it is a candidate of minimal score such that every candidate encountered
strictly earlier in the scan has a strictly greater score — i.e. ties are
broken by first-encountered scan order, exactly the head of the stably
sorted list (fourth conjunct).  The embedded function is pure, so it
mutates nothing. -/
theorem find_best_slot_spec (item : Item) (shelf_id : Int) (its : ItemsMap)
    (vsus : VsuMap) (shelves : ShelfMap) :
    (find_empty_vsu_for_relocate item shelf_id its vsus shelves = none ↔
      ¬ ∃ sid shelf vid vsu, (sid, shelf) ∈ shelves ∧ vid ∈ shelf.virtual_units ∧
          vsus.lookup vid = some vsu ∧ vsu.items = [] ∧
          item_fits_vsu item vsu = true) ∧
    (∀ c, c ∈ candidatesFor item shelf_id vsus shelves →
      ∃ sid shelf, (sid, shelf) ∈ shelves ∧ c.vsu_id ∈ shelf.virtual_units ∧
        vsus.lookup c.vsu_id = some c.vsu ∧ c.vsu.items = [] ∧
        item_fits_vsu item c.vsu = true ∧ c.code = c.vsu.code ∧
        c.score = calculate_vsu_fit_score item c.vsu (sid == shelf_id)
          (some shelf.rack_id == (shelves.lookup shelf_id).map Shelf.rack_id)) ∧
    (∀ sid shelf vid vsu, (sid, shelf) ∈ shelves → vid ∈ shelf.virtual_units →
      vsus.lookup vid = some vsu → vsu.items = [] → item_fits_vsu item vsu = true →
      ∃ c, c ∈ candidatesFor item shelf_id vsus shelves ∧ c.vsu_id = vid ∧ c.vsu = vsu ∧
        c.score = calculate_vsu_fit_score item vsu (sid == shelf_id)
          (some shelf.rack_id == (shelves.lookup shelf_id).map Shelf.rack_id)) ∧
    (∀ vid code v, find_empty_vsu_for_relocate item shelf_id its vsus shelves =
        some (vid, code, v) →
      vsus.lookup vid = some v ∧
      ∃ c l₁ l₂, candidatesFor item shelf_id vsus shelves = l₁ ++ c :: l₂ ∧
        c.vsu_id = vid ∧ c.code = code ∧ c.vsu = v ∧
        (∀ d ∈ l₁, c.score < d.score) ∧ (∀ d ∈ l₂, c.score ≤ d.score)) := by
  refine ⟨?_, ?_, ?_, ?_⟩
  · exact find_eq_none_iff.trans no_passing_slot_iff
  · intro c hc
    obtain ⟨sid, shelf, vid, hsh, hvm, hcv⟩ := mem_candidatesFor.mp hc
    obtain ⟨h1, h2, h3, h4, h5, h6⟩ := considerVsu_some_spec hcv
    subst h1
    exact ⟨sid, shelf, hsh, hvm, h2, h3, h4, h5, h6⟩
  · intro sid shelf vid vsu hsh hvm hl he hf
    obtain ⟨c, hc, h1, h2, h3⟩ := considerVsu_eq_some sid shelf hl he hf
    exact ⟨c, mem_candidatesFor.mpr ⟨sid, shelf, vid, hsh, h1 ▸ hvm, hc⟩, h1, h2, h3⟩
  · intro vid code v hfind
    refine ⟨(find_eq_some_spec hfind).1, ?_⟩
    cases hc : candidatesFor item shelf_id vsus shelves with
    | nil =>
      rw [find_nil hc] at hfind
      cases hfind
    | cons a l =>
      rw [find_cons its hc] at hfind
      injection hfind with h'
      have hv1 : (pickBest a l).vsu_id = vid := congrArg (fun t => t.1) h'
      have hv2 : (pickBest a l).code = code := congrArg (fun t => t.2.1) h'
      have hv3 : (pickBest a l).vsu = v := congrArg (fun t => t.2.2) h'
      obtain ⟨l₁, l₂, hsplit, hs1, hs2⟩ := pickBest_split a l
      exact ⟨pickBest a l, l₁, l₂, hsplit, hv1, hv2, hv3, hs1, hs2⟩

/-- Witness for C4 at the concrete scenario: the search returns the
same-shelf VSU 107, an existing slot, positioned in the candidate list
with strictly larger scores before it and no smaller score anywhere. -/
theorem find_best_slot_spec_witness :
    stdState.virtual_units.lookup 107 = some vsu107 ∧
    ∃ c l₁ l₂,
      candidatesFor item42 1 stdState.virtual_units stdState.shelves = l₁ ++ c :: l₂ ∧
      c.vsu_id = 107 ∧ c.code = "A-01-07" ∧ c.vsu = vsu107 ∧
      (∀ d ∈ l₁, c.score < d.score) ∧ (∀ d ∈ l₂, c.score ≤ d.score) :=
  (find_best_slot_spec item42 1 stdState.items stdState.virtual_units
      stdState.shelves).2.2.2 107 "A-01-07" vsu107 (by decide)

end Stockin
